import Mathlib

/-!
Verification of the Pracht Alpha wallbox custom component
(`custom_components/pracht_alpha`), shallowly embedded in Lean 4.

The embedding covers:
* the JSON-like values the device returns and Python's `dict.get` /
  `==` semantics on them (`JVal`, `Json`);
* the two response parsers `_parse_all_data` and `_parse_lock_status`
  from `api.py`;
* the API client `PrachtAlphaApi` (`_request` with its single
  re-login/retry on HTTP 403, `_do_login`, `login`, and the public
  endpoint methods), modelled as pure state-passing functions over a
  `World` that carries the client state, an oracle for network
  responses, and the trace of requests put on the wire;
* the coordinator poll cycle `_async_update_data` from
  `coordinator.py`.

Conventions: JSON numbers are modelled as integers (the claims under
study never distinguish `0` from `0.0`; Python compares them equal
anyway), header values are modelled as JSON values, and the network is
an oracle `Nat -> NetResp` consulted once per physical send, indexed by
the number of requests sent so far.
-/

set_option autoImplicit false

deriving instance DecidableEq for Except

namespace PrachtAlpha

/-- A JSON-like Python value as it appears in device responses:
numbers, strings, booleans and `None`. -/
inductive JVal where
  | jnum (n : Int)
  | jstr (s : String)
  | jbool (b : Bool)
  | jnull
  deriving DecidableEq, Repr

/-- Python truthiness of a `JVal` (`0`, `""`, `False` and `None` are
falsy), as used by `if self._auth_key:`. -/
def JVal.truthy : JVal → Bool
  | .jnum n => n != 0
  | .jstr s => s != ""
  | .jbool b => b
  | .jnull => false

/-- Numeric view used by Python `==`: booleans compare as `0`/`1`
against numbers (`True == 1` holds in Python). -/
def JVal.asNum : JVal → Option Int
  | .jnum n => some n
  | .jbool b => some (if b then 1 else 0)
  | _ => none

/-- Python `==` on `JVal`: numeric values (including booleans) compare
numerically, everything else compares structurally. -/
def jeq (a b : JVal) : Bool :=
  match a.asNum, b.asNum with
  | some x, some y => x == y
  | _, _ => a == b

/-- Python `str()` of a `JVal`, used by `str(data.get("SoftwareVersion", ""))`. -/
def pyStr : JVal → String
  | .jstr s => s
  | .jnum n => toString n
  | .jbool b => if b then "True" else "False"
  | .jnull => "None"

/-- A structured JSON object (Python `dict`), keys unique. -/
abbrev Json := List (String × JVal)

/-- Key lookup `d[k]`: the value stored under `k`, if the key is present. -/
def Json.get (d : Json) (k : String) : Option JVal :=
  match d.find? (fun p => p.1 == k) with
  | some p => some p.2
  | none => none

/-- Python `d.get(k, v)`: the stored value when the key is present,
otherwise the default `v`. -/
def Json.getD (d : Json) (k : String) (v : JVal) : JVal :=
  match Json.get d k with
  | some x => x
  | none => v

/-- The dataclass `PrachtAlphaData` returned by `GET /api/v1/all`
(`api.py`).  Fields keep the Python dataclass's fields in camelCase;
pass-through fields keep the raw JSON value, the three capability
booleans and `system_initialized` hold the result of the `== 1`
sentinel check, and `numChargingPoints` holds the derived count. -/
structure PrachtAlphaData where
  deviceId : JVal
  softwareVersion : String
  hardwareRevision : JVal
  systemInit : Bool
  numChargingPoints : Int
  errorCode : JVal
  uptime : JVal
  maxCurrentTotal : JVal
  maxCurrentCar1 : JVal
  maxCurrentCar2 : JVal
  maxCurrentPerSide : JVal
  currentCar1 : JVal
  currentCar2 : JVal
  powerCar1 : JVal
  powerCar2 : JVal
  statusCar1 : JVal
  statusCar2 : JVal
  currentMeasSupport : JVal
  supportLockUnlock : Bool
  ledSupport : Bool
  rfidSupported : Bool
  commPcbTemperature : JVal
  boxTemperature : JVal
  currentSettingInputLead : JVal
  energyCar1 : JVal
  energyCar2 : JVal
  swVersionMainPcb : JVal
  swVersionModbusRfid : JVal
  deriving DecidableEq, Repr

/-- The dataclass `PrachtAlphaLockStatus` returned by
`GET /api/v1/lock_status` (`api.py`); all fields are pass-through. -/
structure PrachtAlphaLockStatus where
  lockStatus1 : JVal
  lockStatus2 : JVal
  timerStatus1 : JVal
  timerRemainingTime1 : JVal
  timerStatus2 : JVal
  timerRemainingTime2 : JVal
  powerStatus1 : JVal
  timerRemainingPower1 : JVal
  powerStatus2 : JVal
  timerRemainingPower2 : JVal
  deriving DecidableEq, Repr

/-- Function `_parse_all_data` from `api.py`: parse the `/api/v1/all` response.
`data.get("EnergyCar1")` with no default is Python `None` when the key
is absent, i.e. `jnull` here. -/
def parse_all_data (data : Json) : PrachtAlphaData :=
  { deviceId := data.getD "DeviceId" (.jstr ""),
    softwareVersion := pyStr (data.getD "SoftwareVersion" (.jstr "")),
    hardwareRevision := data.getD "HardwareRevision" (.jnum 0),
    systemInit := jeq (data.getD "SystemInitialized" (.jnum 0)) (.jnum 1),
    numChargingPoints :=
      if jeq (data.getD "NumChargingPoints" (.jnum 1)) (.jnum 0) then 2 else 1,
    errorCode := data.getD "ErrorCode" (.jnum 0),
    uptime := data.getD "Uptime" (.jnum 0),
    maxCurrentTotal := data.getD "MaxCurrentTotal" (.jnum 0),
    maxCurrentCar1 := data.getD "MaxCurrentCar1" (.jnum 0),
    maxCurrentCar2 := data.getD "MaxCurrentCar2" (.jnum 0),
    maxCurrentPerSide := data.getD "MaxCurrentPerSide" (.jnum 0),
    currentCar1 := data.getD "CurrentCar1" (.jnum 0),
    currentCar2 := data.getD "CurrentCar2" (.jnum 0),
    powerCar1 := data.getD "PowerCar1" (.jnum 0),
    powerCar2 := data.getD "PowerCar2" (.jnum 0),
    statusCar1 := data.getD "StatusCar1" (.jnum 0),
    statusCar2 := data.getD "StatusCar2" (.jnum 0),
    currentMeasSupport := data.getD "CurrentMeasSupport" (.jnum 0),
    supportLockUnlock := jeq (data.getD "SupportLockUnlock" (.jnum 0)) (.jnum 1),
    ledSupport := jeq (data.getD "LedSupport" (.jnum 0)) (.jnum 1),
    rfidSupported := jeq (data.getD "RfidSupported" (.jnum 0)) (.jnum 1),
    commPcbTemperature := data.getD "CommPcbTemperature" (.jnum 0),
    boxTemperature := data.getD "BoxTemperature" (.jnum 0),
    currentSettingInputLead := data.getD "CurrentSettingInputLead" (.jnum 0),
    energyCar1 := data.getD "EnergyCar1" .jnull,
    energyCar2 := data.getD "EnergyCar2" .jnull,
    swVersionMainPcb := data.getD "SwVersionMainPcb" (.jnum 0),
    swVersionModbusRfid := data.getD "SwVersionModbusRfidModule" (.jnum 0) }

/-- Function `_parse_lock_status` from `api.py`: parse the `/api/v1/lock_status`
response. -/
def parse_lock_status (data : Json) : PrachtAlphaLockStatus :=
  { lockStatus1 := data.getD "LockStatus1" (.jstr "Unlocked"),
    lockStatus2 := data.getD "LockStatus2" (.jstr "Unlocked"),
    timerStatus1 := data.getD "TimerStatus1" (.jstr "Stopped"),
    timerRemainingTime1 := data.getD "TimerRemainingTime1" (.jnum 0),
    timerStatus2 := data.getD "TimerStatus2" (.jstr "Stopped"),
    timerRemainingTime2 := data.getD "TimerRemainingTime2" (.jnum 0),
    powerStatus1 := data.getD "PowerStatus1" (.jstr "Stopped"),
    timerRemainingPower1 := data.getD "TimerRemainingPower1" (.jnum 0),
    powerStatus2 := data.getD "PowerStatus2" (.jstr "Stopped"),
    timerRemainingPower2 := data.getD "TimerRemainingPower2" (.jnum 0) }


/-! ## The API client `PrachtAlphaApi` -/

/-- The three exception classes of `api.py`:
`PrachtAlphaAuthError`, `PrachtAlphaConnectionError`, `PrachtAlphaError`. -/
inductive ApiError where
  | authError (msg : String)
  | connectionError (msg : String)
  | apiError (msg : String)
  deriving DecidableEq, Repr

/-- Body of an HTTP response as seen by `_request` after `resp.json()`:
either a structured object, some other JSON value (list, number, ...),
or text that did not parse as JSON (the `ValueError` fallback). -/
inductive RespBody where
  | jsonDict (d : Json)
  | jsonOther
  | rawText (s : String)
  deriving DecidableEq, Repr

/-- What the network does with one physical send: either an HTTP
response with a status and body, or a transport failure
(`aiohttp.ClientError` / `TimeoutError`). -/
inductive NetResp where
  | reply (status : Nat) (body : RespBody)
  | netErr (msg : String)
  deriving DecidableEq, Repr

/-- The value `_request` returns: the parsed JSON object, some other
parsed JSON value, or the raw response text. -/
inductive PyResult where
  | pdict (d : Json)
  | pother
  | ptext (s : String)
  deriving DecidableEq, Repr

/-- Mutable state of a `PrachtAlphaApi` instance: `self._auth_key` and
`self._password` (both `None` at construction). -/
structure ApiState where
  authKey : Option JVal
  password : Option String
  deriving DecidableEq, Repr

/-- Python truthiness of `self._password` (an absent or empty password
is falsy). -/
def pwTruthy : Option String → Bool
  | some s => s != ""
  | none => false

/-- Python truthiness of `self._auth_key`. -/
def keyTruthy : Option JVal → Bool
  | some k => k.truthy
  | none => false

/-- The headers `_request` builds:
`if authenticated and self._auth_key: headers["AuthKey"] = self._auth_key`. -/
def authHeaders (authKey : Option JVal) (authenticated : Bool) : List (String × JVal) :=
  match authKey with
  | some k => if authenticated && k.truthy then [("AuthKey", k)] else []
  | none => []

/-- One request as it was put on the wire, together with the attempt
mode and the auth key in force when it was sent. -/
structure SentRequest where
  method : String
  path : String
  jsonData : Option Json
  authenticated : Bool
  keyAtSend : Option JVal
  headers : List (String × JVal)
  deriving DecidableEq, Repr

/-- Build the wire request `_request` sends from the current client
state and the call arguments. -/
def mkSent (api : ApiState) (method path : String) (jsonData : Option Json)
    (authenticated : Bool) : SentRequest :=
  { method := method, path := path, jsonData := jsonData,
    authenticated := authenticated, keyAtSend := api.authKey,
    headers := authHeaders api.authKey authenticated }

/-- The world a client call runs in: the client state, the network
oracle (response to the n-th physical send), and the trace of requests
sent so far. -/
structure World where
  api : ApiState
  net : Nat → NetResp
  sent : List SentRequest

/-- Translate a 200-response body to the value `_request` returns
(`resp.json()` with the text fallback never raises here). -/
def bodyResult : RespBody → Except ApiError PyResult
  | .jsonDict d => .ok (.pdict d)
  | .jsonOther => .ok .pother
  | .rawText s => .ok (.ptext s)

/-- Method `_request` specialised to `retry_auth=False`: one physical send; a
transport failure raises `PrachtAlphaConnectionError`, a 403 raises
`PrachtAlphaAuthError` (the retry condition is false), any other
non-200 raises `PrachtAlphaError`, and a 200 returns the parsed body. -/
def requestNR (w : World) (method path : String) (jsonData : Option Json)
    (authenticated : Bool) : Except ApiError PyResult × World :=
  match w.net w.sent.length with
  | .netErr msg =>
    (.error (.connectionError msg),
     { w with sent := w.sent ++ [mkSent w.api method path jsonData authenticated] })
  | .reply status body =>
    if status = 403 then
      (.error (.authError "Authentication failed"),
       { w with sent := w.sent ++ [mkSent w.api method path jsonData authenticated] })
    else if status ≠ 200 then
      (.error (.apiError "API error"),
       { w with sent := w.sent ++ [mkSent w.api method path jsonData authenticated] })
    else
      (bodyResult body,
       { w with sent := w.sent ++ [mkSent w.api method path jsonData authenticated] })

/-- Method `_do_login` from `api.py`: POST the password to `/api/v1/login`
with `authenticated=False, retry_auth=False`; if the result is not a
structured object or has no `"AuthKey"` key, raise
`PrachtAlphaAuthError`; otherwise store the returned key in
`self._auth_key` and return it. -/
def loginBody (password : String) : Json := [("Password", .jstr password)]

def doLogin (w : World) (password : String) : Except ApiError JVal × World :=
  match (requestNR w "POST" "/api/v1/login" (some (loginBody password)) false).1 with
  | .error e => (.error e, (requestNR w "POST" "/api/v1/login" (some (loginBody password)) false).2)
  | .ok (.pdict d) =>
    match Json.get d "AuthKey" with
    | some k =>
      (.ok k,
       { (requestNR w "POST" "/api/v1/login" (some (loginBody password)) false).2 with
         api := { (requestNR w "POST" "/api/v1/login" (some (loginBody password)) false).2.api with
                  authKey := some k } })
    | none =>
      (.error (.authError "Login failed: no AuthKey in response"),
       (requestNR w "POST" "/api/v1/login" (some (loginBody password)) false).2)
  | .ok .pother =>
    (.error (.authError "Login failed: no AuthKey in response"),
     (requestNR w "POST" "/api/v1/login" (some (loginBody password)) false).2)
  | .ok (.ptext _) =>
    (.error (.authError "Login failed: no AuthKey in response"),
     (requestNR w "POST" "/api/v1/login" (some (loginBody password)) false).2)

/-- Method `_request` from `api.py` in full generality.  On a 403 with
`retry_auth` set, an authenticated attempt and a (truthy) stored
password, it re-logs-in once via `_do_login` and retries the original
call once with `retry_auth=False`; otherwise the 403 raises
`PrachtAlphaAuthError`. -/
def request (w : World) (method path : String) (jsonData : Option Json)
    (authenticated retryAuth : Bool) : Except ApiError PyResult × World :=
  match w.net w.sent.length with
  | .netErr msg =>
    (.error (.connectionError msg),
     { w with sent := w.sent ++ [mkSent w.api method path jsonData authenticated] })
  | .reply status body =>
    if status = 403 then
      if retryAuth && authenticated && pwTruthy w.api.password then
        match (doLogin { w with sent := w.sent ++ [mkSent w.api method path jsonData authenticated] }
                 (w.api.password.getD "")).1 with
        | .error e =>
          (.error e,
           (doLogin { w with sent := w.sent ++ [mkSent w.api method path jsonData authenticated] }
              (w.api.password.getD "")).2)
        | .ok _ =>
          requestNR
            (doLogin { w with sent := w.sent ++ [mkSent w.api method path jsonData authenticated] }
               (w.api.password.getD "")).2
            method path jsonData authenticated
      else
        (.error (.authError "Authentication failed"),
         { w with sent := w.sent ++ [mkSent w.api method path jsonData authenticated] })
    else if status ≠ 200 then
      (.error (.apiError "API error"),
       { w with sent := w.sent ++ [mkSent w.api method path jsonData authenticated] })
    else
      (bodyResult body,
       { w with sent := w.sent ++ [mkSent w.api method path jsonData authenticated] })

/-- Method `login` from `api.py`: store the password for auto-relogin, then
perform the login. -/
def login (w : World) (password : String) : Except ApiError JVal × World :=
  doLogin { w with api := { w.api with password := some password } } password

/-- Method `get_all` from `api.py`: GET `/api/v1/all`, require a structured
object, parse it. -/
def get_all (w : World) : Except ApiError PrachtAlphaData × World :=
  match (request w "GET" "/api/v1/all" none true true).1 with
  | .error e => (.error e, (request w "GET" "/api/v1/all" none true true).2)
  | .ok (.pdict d) => (.ok (parse_all_data d), (request w "GET" "/api/v1/all" none true true).2)
  | .ok .pother => (.error (.apiError "Unexpected response from /api/v1/all"), (request w "GET" "/api/v1/all" none true true).2)
  | .ok (.ptext _) => (.error (.apiError "Unexpected response from /api/v1/all"), (request w "GET" "/api/v1/all" none true true).2)

/-- Method `get_lock_status` from `api.py`: GET `/api/v1/lock_status`, require
a structured object, parse it. -/
def get_lock_status (w : World) : Except ApiError PrachtAlphaLockStatus × World :=
  match (request w "GET" "/api/v1/lock_status" none true true).1 with
  | .error e => (.error e, (request w "GET" "/api/v1/lock_status" none true true).2)
  | .ok (.pdict d) => (.ok (parse_lock_status d), (request w "GET" "/api/v1/lock_status" none true true).2)
  | .ok .pother => (.error (.apiError "Unexpected response from /api/v1/lock_status"), (request w "GET" "/api/v1/lock_status" none true true).2)
  | .ok (.ptext _) => (.error (.apiError "Unexpected response from /api/v1/lock_status"), (request w "GET" "/api/v1/lock_status" none true true).2)

/-- Method `set_power` from `api.py`: POST the three current limits to
`/api/v1/power`. -/
def set_power (w : World) (maxTotal maxCar1 maxCar2 : Int) : Except ApiError PyResult × World :=
  request w "POST" "/api/v1/power"
    (some [("MaxCurrentTotal", .jnum maxTotal), ("MaxCurrentCar1", .jnum maxCar1),
           ("MaxCurrentCar2", .jnum maxCar2)]) true true

/-- Method `lock` from `api.py`: POST a lock action to `/api/v1/lock`. -/
def lock (w : World) (side : Int) : Except ApiError PyResult × World :=
  request w "POST" "/api/v1/lock"
    (some [("action", .jstr "lock"), ("side", .jnum side)]) true true

/-- Method `unlock` from `api.py`: POST an unlock action to `/api/v1/lock`. -/
def unlock (w : World) (side : Int) : Except ApiError PyResult × World :=
  request w "POST" "/api/v1/lock"
    (some [("action", .jstr "unlock"), ("side", .jnum side)]) true true

/-- Method `get_led_mode` from `api.py`: GET `/api/v1/led_mode`, require a
structured object, return its `ledMode` field (default `0`). -/
def get_led_mode (w : World) : Except ApiError JVal × World :=
  match (request w "GET" "/api/v1/led_mode" none true true).1 with
  | .error e => (.error e, (request w "GET" "/api/v1/led_mode" none true true).2)
  | .ok (.pdict d) => (.ok (Json.getD d "ledMode" (.jnum 0)), (request w "GET" "/api/v1/led_mode" none true true).2)
  | .ok .pother => (.error (.apiError "Unexpected response from /api/v1/led_mode"), (request w "GET" "/api/v1/led_mode" none true true).2)
  | .ok (.ptext _) => (.error (.apiError "Unexpected response from /api/v1/led_mode"), (request w "GET" "/api/v1/led_mode" none true true).2)

/-- Method `set_led_mode` from `api.py`: POST the LED mode to `/api/v1/led_mode`. -/
def set_led_mode (w : World) (mode : Int) : Except ApiError PyResult × World :=
  request w "POST" "/api/v1/led_mode" (some [("ledMode", .jnum mode)]) true true

/-- The public operations of `PrachtAlphaApi`. -/
inductive ApiOp where
  | opLogin (password : String)
  | opGetAll
  | opGetLockStatus
  | opSetPower (maxTotal maxCar1 maxCar2 : Int)
  | opLock (side : Int)
  | opUnlock (side : Int)
  | opGetLedMode
  | opSetLedMode (mode : Int)
  deriving DecidableEq, Repr

/-- Run a public operation for its effect on the world. -/
def runOp (w : World) : ApiOp → World
  | .opLogin pw => (login w pw).2
  | .opGetAll => (get_all w).2
  | .opGetLockStatus => (get_lock_status w).2
  | .opSetPower a b c => (set_power w a b c).2
  | .opLock s => (lock w s).2
  | .opUnlock s => (unlock w s).2
  | .opGetLedMode => (get_led_mode w).2
  | .opSetLedMode m => (set_led_mode w m).2

/-! ## The coordinator poll cycle -/

/-- The published unit `PrachtAlphaCoordinatorData` from
`coordinator.py`. -/
structure PrachtAlphaCoordinatorData where
  allData : PrachtAlphaData
  lockStatus : Option PrachtAlphaLockStatus
  deriving DecidableEq, Repr

/-- Outcome of one `_async_update_data` call: a published snapshot, a
`ConfigEntryAuthFailed`, an `UpdateFailed`, or an exception that
escapes the method uncaught. -/
inductive CoordOutcome where
  | published (d : PrachtAlphaCoordinatorData)
  | authFailed
  | updateFailed
  | raised (e : ApiError)
  deriving DecidableEq, Repr

/-- Method `_async_update_data` from `coordinator.py`.  `get_all` failures are
classified (`PrachtAlphaAuthError` → `ConfigEntryAuthFailed`, the other
two → `UpdateFailed`); when `supportLockUnlock` is set the lock-status
fetch runs under `except (PrachtAlphaConnectionError, PrachtAlphaError)`,
which swallows those two but lets a `PrachtAlphaAuthError` escape. -/
def async_update_data (w : World) : CoordOutcome × World :=
  match (get_all w).1 with
  | .error (.authError _) => (.authFailed, (get_all w).2)
  | .error (.connectionError _) => (.updateFailed, (get_all w).2)
  | .error (.apiError _) => (.updateFailed, (get_all w).2)
  | .ok ad =>
    if ad.supportLockUnlock then
      match (get_lock_status (get_all w).2).1 with
      | .ok ls => (.published { allData := ad, lockStatus := some ls }, (get_lock_status (get_all w).2).2)
      | .error (.authError m) => (.raised (.authError m), (get_lock_status (get_all w).2).2)
      | .error (.connectionError _) =>
          (.published { allData := ad, lockStatus := none }, (get_lock_status (get_all w).2).2)
      | .error (.apiError _) =>
          (.published { allData := ad, lockStatus := none }, (get_lock_status (get_all w).2).2)
    else (.published { allData := ad, lockStatus := none }, (get_all w).2)


/-! ## Helper lemmas about the client state machine -/

/-- Lemma: `requestNR` performs exactly one physical send and touches neither
the client state nor the network oracle. -/
theorem requestNR_snd (w : World) (m p : String) (j : Option Json) (a : Bool) :
    (requestNR w m p j a).2 = { w with sent := w.sent ++ [mkSent w.api m p j a] } := by
  unfold requestNR
  cases w.net w.sent.length with
  | netErr msg => rfl
  | reply s b =>
    by_cases h : s = 403
    · simp [h]
    · by_cases h2 : s = 200 <;> simp [h, h2]

/-- The single wire request `_do_login` emits. -/
def loginSent (api : ApiState) (pw : String) : SentRequest :=
  mkSent api "POST" "/api/v1/login" (some (loginBody pw)) false

/-- Shape of a `_do_login` run: exactly one wire request, the oracle
and the stored password untouched; the stored auth key is unchanged on
any failure and becomes the returned key on success. -/
theorem doLogin_spec (w : World) (pw : String) :
    (doLogin w pw).2.sent = w.sent ++ [loginSent w.api pw] ∧
    (doLogin w pw).2.net = w.net ∧
    (doLogin w pw).2.api.password = w.api.password ∧
    (∀ e, (doLogin w pw).1 = .error e → (doLogin w pw).2.api.authKey = w.api.authKey) ∧
    (∀ k, (doLogin w pw).1 = .ok k → (doLogin w pw).2.api.authKey = some k) := by
  have hsnd := requestNR_snd w "POST" "/api/v1/login" (some (loginBody pw)) false
  unfold doLogin
  cases hr : (requestNR w "POST" "/api/v1/login" (some (loginBody pw)) false).1 with
  | error e => simp [hsnd, loginSent]
  | ok v =>
    cases v with
    | pdict d =>
      cases hg : Json.get d "AuthKey" with
      | some k => simp [hsnd, hg, loginSent]
      | none => simp [hsnd, hg, loginSent]
    | pother => simp [hsnd, loginSent]
    | ptext s => simp [hsnd, loginSent]


/-- Shape of any wire request `_request m p j a _` can emit: an attempt
at the original call, or the re-login POST to `/api/v1/login`. -/
def sentOk (m p : String) (j : Option Json) (a : Bool) (r : SentRequest) : Prop :=
  (∃ api, r = mkSent api m p j a) ∨
  (∃ api pw, r = mkSent api "POST" "/api/v1/login" (some (loginBody pw)) false)

/-- Every request `_request` puts on the wire is either an attempt at
the original call or a re-login POST. -/
theorem request_sends (w : World) (m p : String) (j : Option Json) (a ra : Bool) :
    ∃ l, (request w m p j a ra).2.sent = w.sent ++ l ∧ ∀ r ∈ l, sentOk m p j a r := by
  unfold request
  cases w.net w.sent.length with
  | netErr msg =>
    refine ⟨[mkSent w.api m p j a], rfl, ?_⟩
    intro r hr
    simp only [List.mem_singleton] at hr
    exact Or.inl ⟨w.api, hr⟩
  | reply s b =>
    by_cases h403 : s = 403
    · by_cases hc : (ra && a && pwTruthy w.api.password) = true
      · have hdl := doLogin_spec { w with sent := w.sent ++ [mkSent w.api m p j a] }
          (w.api.password.getD "")
        cases hr : (doLogin { w with sent := w.sent ++ [mkSent w.api m p j a] }
            (w.api.password.getD "")).1 with
        | error e =>
          refine ⟨[mkSent w.api m p j a, loginSent w.api (w.api.password.getD "")], ?_, ?_⟩
          · simp [h403, hc, hr, hdl.1]
          · intro r hmem
            rcases List.mem_cons.mp hmem with h | hmem2
            · exact Or.inl ⟨w.api, h⟩
            · rcases List.mem_cons.mp hmem2 with h | hmem3
              · exact Or.inr ⟨w.api, w.api.password.getD "", h⟩
              · cases hmem3
        | ok k =>
          have hnr := requestNR_snd
            (doLogin { w with sent := w.sent ++ [mkSent w.api m p j a] }
              (w.api.password.getD "")).2 m p j a
          refine ⟨[mkSent w.api m p j a, loginSent w.api (w.api.password.getD ""),
                   mkSent (doLogin { w with sent := w.sent ++ [mkSent w.api m p j a] }
                     (w.api.password.getD "")).2.api m p j a], ?_, ?_⟩
          · simp [h403, hc, hr, hnr, hdl.1]
          · intro r hmem
            rcases List.mem_cons.mp hmem with h | hmem2
            · exact Or.inl ⟨w.api, h⟩
            · rcases List.mem_cons.mp hmem2 with h | hmem3
              · exact Or.inr ⟨w.api, w.api.password.getD "", h⟩
              · rcases List.mem_cons.mp hmem3 with h | hmem4
                · exact Or.inl ⟨_, h⟩
                · cases hmem4
      · refine ⟨[mkSent w.api m p j a], ?_, ?_⟩
        · simp [h403, hc]
        · intro r hr
          simp only [List.mem_singleton] at hr
          exact Or.inl ⟨w.api, hr⟩
    · by_cases h200 : s = 200
      · refine ⟨[mkSent w.api m p j a], ?_, ?_⟩
        · simp [h403, h200]
        · intro r hr
          simp only [List.mem_singleton] at hr
          exact Or.inl ⟨w.api, hr⟩
      · refine ⟨[mkSent w.api m p j a], ?_, ?_⟩
        · simp [h403, h200]
        · intro r hr
          simp only [List.mem_singleton] at hr
          exact Or.inl ⟨w.api, hr⟩

/-- Lemma: `get_all` returns the world of its underlying request unchanged. -/
theorem get_all_snd (w : World) :
    (get_all w).2 = (request w "GET" "/api/v1/all" none true true).2 := by
  unfold get_all
  cases hr : (request w "GET" "/api/v1/all" none true true).1 with
  | error e => rfl
  | ok v => cases v <;> rfl

/-- Lemma: `get_lock_status` returns the world of its underlying request unchanged. -/
theorem get_lock_status_snd (w : World) :
    (get_lock_status w).2 = (request w "GET" "/api/v1/lock_status" none true true).2 := by
  unfold get_lock_status
  cases hr : (request w "GET" "/api/v1/lock_status" none true true).1 with
  | error e => rfl
  | ok v => cases v <;> rfl

/-- The wire requests of one `get_all` call target only `/api/v1/all`
or (via re-login) `/api/v1/login`. -/
theorem get_all_paths (w : World) :
    ∃ l, (get_all w).2.sent = w.sent ++ l ∧
      ∀ r ∈ l, r.path = "/api/v1/all" ∨ r.path = "/api/v1/login" := by
  obtain ⟨l, hl, hok⟩ := request_sends w "GET" "/api/v1/all" none true true
  refine ⟨l, by rw [get_all_snd]; exact hl, ?_⟩
  intro r hr
  rcases hok r hr with ⟨api, h⟩ | ⟨api, pw, h⟩
  · exact Or.inl (by rw [h]; rfl)
  · exact Or.inr (by rw [h]; rfl)


/-- A transport failure on the login send surfaces as
`PrachtAlphaConnectionError` from `_do_login`. -/
theorem doLogin_fst_netErr (w : World) (pw msg : String)
    (h : w.net w.sent.length = .netErr msg) :
    (doLogin w pw).1 = .error (.connectionError msg) := by
  unfold doLogin requestNR
  rw [h]

/-- A 403 on the login send surfaces as `PrachtAlphaAuthError` from
`_do_login` (the login request itself is never retried). -/
theorem doLogin_fst_403 (w : World) (pw : String) (b : RespBody)
    (h : w.net w.sent.length = .reply 403 b) :
    (doLogin w pw).1 = .error (.authError "Authentication failed") := by
  unfold doLogin requestNR
  rw [h]
  simp

/-- A 200 login response that is a structured object carrying an
`AuthKey` makes `_do_login` succeed, store the key, and leave the rest
of the world as after the one send. -/
theorem doLogin_fst_ok (w : World) (pw : String) (d : Json) (k : JVal)
    (h : w.net w.sent.length = .reply 200 (.jsonDict d))
    (hk : Json.get d "AuthKey" = some k) :
    (doLogin w pw).1 = .ok k ∧
    (doLogin w pw).2 =
      { w with api := { w.api with authKey := some k },
               sent := w.sent ++ [loginSent w.api pw] } := by
  unfold doLogin requestNR
  rw [h]
  simp [bodyResult, hk, loginSent]

/-- A 200 login response that is a structured object without an
`AuthKey` makes `_do_login` fail with `PrachtAlphaAuthError`. -/
theorem doLogin_fst_noKey (w : World) (pw : String) (d : Json)
    (h : w.net w.sent.length = .reply 200 (.jsonDict d))
    (hk : Json.get d "AuthKey" = none) :
    (doLogin w pw).1 = .error (.authError "Login failed: no AuthKey in response") := by
  unfold doLogin requestNR
  rw [h]
  simp [bodyResult, hk]

/-- A 200 login response that is valid JSON but not a structured object
makes `_do_login` fail with `PrachtAlphaAuthError`. -/
theorem doLogin_fst_jsonOther (w : World) (pw : String)
    (h : w.net w.sent.length = .reply 200 .jsonOther) :
    (doLogin w pw).1 = .error (.authError "Login failed: no AuthKey in response") := by
  unfold doLogin requestNR
  rw [h]
  simp [bodyResult]

/-- A 200 login response that is not JSON at all (raw text) makes
`_do_login` fail with `PrachtAlphaAuthError`. -/
theorem doLogin_fst_rawText (w : World) (pw s : String)
    (h : w.net w.sent.length = .reply 200 (.rawText s)) :
    (doLogin w pw).1 = .error (.authError "Login failed: no AuthKey in response") := by
  unfold doLogin requestNR
  rw [h]
  simp [bodyResult]

/-- Unfolding of `_request` at a 403 when a (truthy) password is on
file: the call becomes one `_do_login` followed (on success) by one
retry with `retry_auth=False`. -/
theorem request_403_retry (w : World) (m p : String) (j : Option Json) (b : RespBody)
    (pw : String)
    (hpw : w.api.password = some pw) (hne : (pw != "") = true)
    (h0 : w.net w.sent.length = .reply 403 b) :
    request w m p j true true =
      match (doLogin { w with sent := w.sent ++ [mkSent w.api m p j true] } pw).1 with
      | .error e =>
        (.error e, (doLogin { w with sent := w.sent ++ [mkSent w.api m p j true] } pw).2)
      | .ok _ =>
        requestNR (doLogin { w with sent := w.sent ++ [mkSent w.api m p j true] } pw).2
          m p j true := by
  unfold request
  rw [h0]
  simp [hpw, pwTruthy, hne]

/-! ## Claim theorems -/

/-- Claim C4: for every input object given to the `AllData` parser, the
derived `numChargingPoints` equals 2 when the raw `NumChargingPoints`
value is 0, and equals 1 when the raw value is nonzero or the field is
absent. -/
theorem C4_numChargingPoints_inversion :
    (∀ (d : Json) (n : Int), Json.get d "NumChargingPoints" = some (.jnum n) →
      (parse_all_data d).numChargingPoints = if n = 0 then 2 else 1) ∧
    (∀ d : Json, Json.get d "NumChargingPoints" = none →
      (parse_all_data d).numChargingPoints = 1) := by
  constructor
  · intro d n h
    simp only [parse_all_data, Json.getD, h, jeq, JVal.asNum]
    by_cases hn : n = 0 <;> simp [hn]
  · intro d h
    simp [parse_all_data, Json.getD, h, jeq, JVal.asNum]

/-- Witness for C4 at concrete inputs: raw value 0 gives 2, an absent
field gives 1. -/
theorem C4_witness :
    ((Json.get [("NumChargingPoints", JVal.jnum 0)] "NumChargingPoints"
        = some (.jnum 0)) ∧
      (parse_all_data [("NumChargingPoints", JVal.jnum 0)]).numChargingPoints
        = (if (0 : Int) = 0 then 2 else 1)) ∧
    ((Json.get ([] : Json) "NumChargingPoints" = none) ∧
      (parse_all_data ([] : Json)).numChargingPoints = 1) :=
  ⟨⟨by decide,
    C4_numChargingPoints_inversion.1 [("NumChargingPoints", JVal.jnum 0)] 0 (by decide)⟩,
   ⟨by decide, C4_numChargingPoints_inversion.2 [] (by decide)⟩⟩

/-- Claim C5: missing optional fields get the documented per-field
defaults: `AllData` booleans default to `false` through the `== 1`
sentinel check, numeric fields default to 0, the two per-side energy
fields default to null (Python `None`) rather than 0, and the
`LockStatus` string enums default to "Unlocked" / "Stopped" rather than
the empty string. -/
theorem C5_parser_defaults (d ld : Json) :
    (Json.get d "SystemInitialized" = none → (parse_all_data d).systemInit = false) ∧
    (Json.get d "SupportLockUnlock" = none → (parse_all_data d).supportLockUnlock = false) ∧
    (Json.get d "LedSupport" = none → (parse_all_data d).ledSupport = false) ∧
    (Json.get d "RfidSupported" = none → (parse_all_data d).rfidSupported = false) ∧
    (∀ v, Json.get d "SystemInitialized" = some v →
      (parse_all_data d).systemInit = jeq v (.jnum 1)) ∧
    (∀ v, Json.get d "SupportLockUnlock" = some v →
      (parse_all_data d).supportLockUnlock = jeq v (.jnum 1)) ∧
    (∀ v, Json.get d "LedSupport" = some v →
      (parse_all_data d).ledSupport = jeq v (.jnum 1)) ∧
    (∀ v, Json.get d "RfidSupported" = some v →
      (parse_all_data d).rfidSupported = jeq v (.jnum 1)) ∧
    (Json.get d "HardwareRevision" = none → (parse_all_data d).hardwareRevision = .jnum 0) ∧
    (Json.get d "ErrorCode" = none → (parse_all_data d).errorCode = .jnum 0) ∧
    (Json.get d "Uptime" = none → (parse_all_data d).uptime = .jnum 0) ∧
    (Json.get d "MaxCurrentTotal" = none → (parse_all_data d).maxCurrentTotal = .jnum 0) ∧
    (Json.get d "MaxCurrentCar1" = none → (parse_all_data d).maxCurrentCar1 = .jnum 0) ∧
    (Json.get d "MaxCurrentCar2" = none → (parse_all_data d).maxCurrentCar2 = .jnum 0) ∧
    (Json.get d "MaxCurrentPerSide" = none → (parse_all_data d).maxCurrentPerSide = .jnum 0) ∧
    (Json.get d "CurrentCar1" = none → (parse_all_data d).currentCar1 = .jnum 0) ∧
    (Json.get d "CurrentCar2" = none → (parse_all_data d).currentCar2 = .jnum 0) ∧
    (Json.get d "PowerCar1" = none → (parse_all_data d).powerCar1 = .jnum 0) ∧
    (Json.get d "PowerCar2" = none → (parse_all_data d).powerCar2 = .jnum 0) ∧
    (Json.get d "StatusCar1" = none → (parse_all_data d).statusCar1 = .jnum 0) ∧
    (Json.get d "StatusCar2" = none → (parse_all_data d).statusCar2 = .jnum 0) ∧
    (Json.get d "CurrentMeasSupport" = none → (parse_all_data d).currentMeasSupport = .jnum 0) ∧
    (Json.get d "CommPcbTemperature" = none → (parse_all_data d).commPcbTemperature = .jnum 0) ∧
    (Json.get d "BoxTemperature" = none → (parse_all_data d).boxTemperature = .jnum 0) ∧
    (Json.get d "CurrentSettingInputLead" = none →
      (parse_all_data d).currentSettingInputLead = .jnum 0) ∧
    (Json.get d "SwVersionMainPcb" = none → (parse_all_data d).swVersionMainPcb = .jnum 0) ∧
    (Json.get d "SwVersionModbusRfidModule" = none →
      (parse_all_data d).swVersionModbusRfid = .jnum 0) ∧
    (Json.get d "EnergyCar1" = none → (parse_all_data d).energyCar1 = .jnull) ∧
    (Json.get d "EnergyCar2" = none → (parse_all_data d).energyCar2 = .jnull) ∧
    (Json.get ld "LockStatus1" = none → (parse_lock_status ld).lockStatus1 = .jstr "Unlocked") ∧
    (Json.get ld "LockStatus2" = none → (parse_lock_status ld).lockStatus2 = .jstr "Unlocked") ∧
    (Json.get ld "TimerStatus1" = none → (parse_lock_status ld).timerStatus1 = .jstr "Stopped") ∧
    (Json.get ld "TimerStatus2" = none → (parse_lock_status ld).timerStatus2 = .jstr "Stopped") ∧
    (Json.get ld "PowerStatus1" = none → (parse_lock_status ld).powerStatus1 = .jstr "Stopped") ∧
    (Json.get ld "PowerStatus2" = none → (parse_lock_status ld).powerStatus2 = .jstr "Stopped") ∧
    (Json.get ld "TimerRemainingTime1" = none →
      (parse_lock_status ld).timerRemainingTime1 = .jnum 0) ∧
    (Json.get ld "TimerRemainingTime2" = none →
      (parse_lock_status ld).timerRemainingTime2 = .jnum 0) ∧
    (Json.get ld "TimerRemainingPower1" = none →
      (parse_lock_status ld).timerRemainingPower1 = .jnum 0) ∧
    (Json.get ld "TimerRemainingPower2" = none →
      (parse_lock_status ld).timerRemainingPower2 = .jnum 0) := by
  repeat' constructor
  all_goals
    first
    | (intro h; simp [parse_all_data, parse_lock_status, Json.getD, h, jeq, JVal.asNum])
    | (intro v h; simp [parse_all_data, parse_lock_status, Json.getD, h])

/-- Witness for C5: the empty response objects take every documented
default. -/
theorem C5_witness :
    (Json.get ([] : Json) "SupportLockUnlock" = none) ∧
    (parse_all_data ([] : Json)).supportLockUnlock = false ∧
    (parse_all_data ([] : Json)).energyCar1 = .jnull ∧
    (parse_lock_status ([] : Json)).lockStatus1 = .jstr "Unlocked" ∧
    (parse_lock_status ([] : Json)).timerStatus1 = .jstr "Stopped" := by
  obtain ⟨_, h2, _, _, _, _, _, _, _, _, _, _, _, _, _, _, _, _, _, _, _, _, _, _, _, _, _,
    h28, _, h30, _, h32, _, _, _, _, _, _, _⟩ := C5_parser_defaults [] []
  exact ⟨by decide, h2 (by decide), h28 (by decide), h30 (by decide), h32 (by decide)⟩


/-- Claim C6: a 403 on an authenticated call while no password is
stored raises `PrachtAlphaAuthError` immediately: no re-login attempt,
only the one original request goes on the wire. -/
theorem C6_403_no_password (w : World) (m p : String) (j : Option Json) (b : RespBody)
    (hpw : w.api.password = none)
    (h0 : w.net w.sent.length = .reply 403 b) :
    (request w m p j true true).1 = .error (.authError "Authentication failed") ∧
    (request w m p j true true).2.sent = w.sent ++ [mkSent w.api m p j true] := by
  unfold request
  rw [h0]
  simp [hpw, pwTruthy]

/-- World for the C6 witness: no credentials stored, the device answers
403 to everything. -/
def c6w : World :=
  { api := { authKey := none, password := none },
    net := fun _ => .reply 403 (.rawText "Forbidden"), sent := [] }

/-- Witness for C6: on the concrete 403-answering world the call fails
with `AuthError` after a single wire request. -/
theorem C6_witness :
    c6w.api.password = none ∧
    c6w.net c6w.sent.length = .reply 403 (.rawText "Forbidden") ∧
    (request c6w "GET" "/api/v1/all" none true true).1
      = .error (.authError "Authentication failed") ∧
    (request c6w "GET" "/api/v1/all" none true true).2.sent
      = c6w.sent ++ [mkSent c6w.api "GET" "/api/v1/all" none true] :=
  ⟨rfl, rfl,
   (C6_403_no_password c6w "GET" "/api/v1/all" none (.rawText "Forbidden") rfl rfl).1,
   (C6_403_no_password c6w "GET" "/api/v1/all" none (.rawText "Forbidden") rfl rfl).2⟩

/-- Claim C7: a network-level failure on any send of any call raises
`PrachtAlphaConnectionError` — whether it hits the original send, the
re-login send, or the retried send — never `AuthError` or
`ProtocolError`. -/
theorem C7_network_failure (w : World) (m p : String) (j : Option Json) :
    (∀ (a ra : Bool) (msg : String), w.net w.sent.length = .netErr msg →
      (request w m p j a ra).1 = .error (.connectionError msg)) ∧
    (∀ (b : RespBody) (pw msg : String),
      w.api.password = some pw → (pw != "") = true →
      w.net w.sent.length = .reply 403 b →
      w.net (w.sent.length + 1) = .netErr msg →
      (request w m p j true true).1 = .error (.connectionError msg)) ∧
    (∀ (b : RespBody) (pw msg : String) (d : Json) (k : JVal),
      w.api.password = some pw → (pw != "") = true →
      w.net w.sent.length = .reply 403 b →
      w.net (w.sent.length + 1) = .reply 200 (.jsonDict d) →
      Json.get d "AuthKey" = some k →
      w.net (w.sent.length + 2) = .netErr msg →
      (request w m p j true true).1 = .error (.connectionError msg)) := by
  refine ⟨?_, ?_, ?_⟩
  · intro a ra msg h
    unfold request
    rw [h]
  · intro b pw msg hpw hne h0 h1
    rw [request_403_retry w m p j b pw hpw hne h0]
    have hnet : ({ w with sent := w.sent ++ [mkSent w.api m p j true] } : World).net
        ({ w with sent := w.sent ++ [mkSent w.api m p j true] } : World).sent.length
        = .netErr msg := by
      simpa using h1
    rw [doLogin_fst_netErr _ pw msg hnet]
  · intro b pw msg d k hpw hne h0 h1 hk h2
    rw [request_403_retry w m p j b pw hpw hne h0]
    have hnet : ({ w with sent := w.sent ++ [mkSent w.api m p j true] } : World).net
        ({ w with sent := w.sent ++ [mkSent w.api m p j true] } : World).sent.length
        = .reply 200 (.jsonDict d) := by
      simpa using h1
    obtain ⟨hfst, hsnd⟩ := doLogin_fst_ok _ pw d k hnet hk
    rw [hfst, hsnd]
    unfold requestNR
    have hnet2 : w.net (w.sent.length + 1 + 1) = .netErr msg := by
      rw [show w.sent.length + 1 + 1 = w.sent.length + 2 from rfl]
      exact h2
    simpa using hnet2.symm ▸ rfl

/-- World for the C7 witness: the device is unreachable. -/
def c7w : World :=
  { api := { authKey := none, password := none },
    net := fun _ => .netErr "Cannot connect", sent := [] }

/-- Witness for C7: a concrete timed-out call raises `ConnectionError`. -/
theorem C7_witness :
    c7w.net c7w.sent.length = .netErr "Cannot connect" ∧
    (request c7w "GET" "/api/v1/all" none true true).1
      = .error (.connectionError "Cannot connect") :=
  ⟨rfl, (C7_network_failure c7w "GET" "/api/v1/all" none).1 true true "Cannot connect" rfl⟩


/-- Claim C1 (amended): a 403 on an authenticated call while a
non-empty password is stored triggers exactly one re-login with the
stored password and exactly one retry of the original call; a second
403 on the retry raises `AuthError` with no further re-login.  The
trace extension is pinned exactly: the original attempt, one login
POST, one retry carrying the new key — nothing else. -/
theorem C1_relogin_once (w : World) (m p : String) (j : Option Json)
    (pw : String) (b0 b2 : RespBody) (d : Json) (k : JVal)
    (hpw : w.api.password = some pw) (hne : (pw != "") = true)
    (h0 : w.net w.sent.length = .reply 403 b0)
    (h1 : w.net (w.sent.length + 1) = .reply 200 (.jsonDict d))
    (hk : Json.get d "AuthKey" = some k)
    (h2 : w.net (w.sent.length + 2) = .reply 403 b2) :
    (request w m p j true true).1 = .error (.authError "Authentication failed") ∧
    (request w m p j true true).2.sent =
      w.sent ++ [mkSent w.api m p j true,
                 loginSent w.api pw,
                 mkSent { w.api with authKey := some k } m p j true] := by
  rw [request_403_retry w m p j b0 pw hpw hne h0]
  have hnet : ({ w with sent := w.sent ++ [mkSent w.api m p j true] } : World).net
      ({ w with sent := w.sent ++ [mkSent w.api m p j true] } : World).sent.length
      = .reply 200 (.jsonDict d) := by
    simpa using h1
  obtain ⟨hfst, hsnd⟩ := doLogin_fst_ok _ pw d k hnet hk
  rw [hfst, hsnd]
  unfold requestNR
  have h2' : w.net (w.sent.length + 1 + 1) = .reply 403 b2 := by
    rw [show w.sent.length + 1 + 1 = w.sent.length + 2 from rfl]
    exact h2
  simp only [List.length_append, List.length_cons, List.length_nil]
  rw [show w.sent.length + (0 + 1) + (0 + 1) = w.sent.length + 1 + 1 by omega]
  rw [h2']
  simp [loginSent]

/-- Network for the C1 counterexample: 403 on every request. -/
def c1net : Nat → NetResp := fun _ => .reply 403 (.rawText "Forbidden")

/-- World for the C1 counterexample: a freshly constructed client. -/
def c1w : World :=
  { api := { authKey := none, password := none }, net := c1net, sent := [] }

/-- Counterexample to C1 as stated: `login("")` stores the empty
password (`self._password = ""` happens before the login request, whose
403 makes it fail), so a password *is* stored; yet the following
`get_all`, on its 403, performs no re-login and no retry — the whole
trace holds one login POST (from the explicit `login` call) and one
`/api/v1/all` attempt — because Python's `if self._password:` is false
for the empty string.  The claim's "exactly one re-login then one
retry" fails at this input. -/
theorem C1_counterexample :
    (login c1w "").2.api.password = some "" ∧
    (get_all (login c1w "").2).1 = .error (.authError "Authentication failed") ∧
    (get_all (login c1w "").2).2.sent.map SentRequest.path
      = ["/api/v1/login", "/api/v1/all"] := by
  decide

/-- Network for the C1 witness: 403, then a successful login, then 403
again on the retry. -/
def c1wnet : Nat → NetResp
  | 0 => .reply 403 (.rawText "Forbidden")
  | 1 => .reply 200 (.jsonDict [("AuthKey", .jstr "KEY2")])
  | _ => .reply 403 (.rawText "Forbidden")

/-- World for the C1 witness: a client with a stored non-empty password
and an old key. -/
def c1ww : World :=
  { api := { authKey := some (.jstr "KEY1"), password := some "secret" },
    net := c1wnet, sent := [] }

/-- Witness for C1: on the concrete 403/relogin/403 run the call sends
exactly the original attempt, one login POST and one retry, and ends in
`AuthError`. -/
theorem C1_witness :
    c1ww.api.password = some "secret" ∧
    ("secret" != "") = true ∧
    c1ww.net c1ww.sent.length = .reply 403 (.rawText "Forbidden") ∧
    c1ww.net (c1ww.sent.length + 1) = .reply 200 (.jsonDict [("AuthKey", .jstr "KEY2")]) ∧
    Json.get [("AuthKey", JVal.jstr "KEY2")] "AuthKey" = some (.jstr "KEY2") ∧
    c1ww.net (c1ww.sent.length + 2) = .reply 403 (.rawText "Forbidden") ∧
    (request c1ww "GET" "/api/v1/all" none true true).1
      = .error (.authError "Authentication failed") ∧
    (request c1ww "GET" "/api/v1/all" none true true).2.sent
      = c1ww.sent ++ [mkSent c1ww.api "GET" "/api/v1/all" none true,
                      loginSent c1ww.api "secret",
                      mkSent { c1ww.api with authKey := some (.jstr "KEY2") }
                        "GET" "/api/v1/all" none true] :=
  ⟨rfl, by decide, rfl, rfl, by decide, rfl,
   (C1_relogin_once c1ww "GET" "/api/v1/all" none "secret"
      (.rawText "Forbidden") (.rawText "Forbidden")
      [("AuthKey", JVal.jstr "KEY2")] (.jstr "KEY2")
      rfl (by decide) rfl rfl (by decide) rfl).1,
   (C1_relogin_once c1ww "GET" "/api/v1/all" none "secret"
      (.rawText "Forbidden") (.rawText "Forbidden")
      [("AuthKey", JVal.jstr "KEY2")] (.jstr "KEY2")
      rfl (by decide) rfl rfl (by decide) rfl).2⟩


/-- Claim C9: `login(password)` fails with `AuthError` when the login
response carries no valid key (not a structured object, or a structured
object without `AuthKey`); on success it stores the password for future
automatic re-login and overwrites any existing auth key with the newly
returned one. -/
theorem C9_login_contract (w : World) (pw : String) :
    (∀ (d : Json) (k : JVal),
      w.net w.sent.length = .reply 200 (.jsonDict d) → Json.get d "AuthKey" = some k →
      (login w pw).1 = .ok k ∧
      (login w pw).2.api.authKey = some k ∧
      (login w pw).2.api.password = some pw) ∧
    (∀ d : Json,
      w.net w.sent.length = .reply 200 (.jsonDict d) → Json.get d "AuthKey" = none →
      (login w pw).1 = .error (.authError "Login failed: no AuthKey in response")) ∧
    (w.net w.sent.length = .reply 200 .jsonOther →
      (login w pw).1 = .error (.authError "Login failed: no AuthKey in response")) ∧
    (∀ s : String, w.net w.sent.length = .reply 200 (.rawText s) →
      (login w pw).1 = .error (.authError "Login failed: no AuthKey in response")) := by
  unfold login
  refine ⟨?_, ?_, ?_, ?_⟩
  · intro d k h hk
    obtain ⟨hfst, hsnd⟩ :=
      doLogin_fst_ok { w with api := { w.api with password := some pw } } pw d k h hk
    refine ⟨hfst, ?_, ?_⟩
    · rw [hsnd]
    · exact (doLogin_spec { w with api := { w.api with password := some pw } } pw).2.2.1
  · intro d h hk
    exact doLogin_fst_noKey { w with api := { w.api with password := some pw } } pw d h hk
  · intro h
    exact doLogin_fst_jsonOther { w with api := { w.api with password := some pw } } pw h
  · intro s h
    exact doLogin_fst_rawText { w with api := { w.api with password := some pw } } pw s h

/-- World for the C9 witness success half: the device accepts the login
and returns a fresh key while an old key is stored. -/
def c9w : World :=
  { api := { authKey := some (.jstr "OLD"), password := none },
    net := fun _ => .reply 200 (.jsonDict [("AuthKey", .jstr "NEW")]), sent := [] }

/-- World for the C9 witness failure half: the device answers the login
with a 200 whose body is not a structured object. -/
def c9wbad : World :=
  { api := { authKey := some (.jstr "OLD"), password := none },
    net := fun _ => .reply 200 (.rawText "nope"), sent := [] }

/-- Witness for C9: a concrete successful login returns and stores the
new key over the old one and records the password; a concrete
non-structured 200 fails with `AuthError`. -/
theorem C9_witness :
    c9w.net c9w.sent.length = .reply 200 (.jsonDict [("AuthKey", .jstr "NEW")]) ∧
    Json.get [("AuthKey", JVal.jstr "NEW")] "AuthKey" = some (.jstr "NEW") ∧
    (login c9w "secret").1 = .ok (.jstr "NEW") ∧
    (login c9w "secret").2.api.authKey = some (.jstr "NEW") ∧
    (login c9w "secret").2.api.password = some "secret" ∧
    c9wbad.net c9wbad.sent.length = .reply 200 (.rawText "nope") ∧
    (login c9wbad "secret").1 = .error (.authError "Login failed: no AuthKey in response") :=
  ⟨rfl, by decide,
   ((C9_login_contract c9w "secret").1 [("AuthKey", JVal.jstr "NEW")] (.jstr "NEW")
      rfl (by decide)).1,
   ((C9_login_contract c9w "secret").1 [("AuthKey", JVal.jstr "NEW")] (.jstr "NEW")
      rfl (by decide)).2.1,
   ((C9_login_contract c9w "secret").1 [("AuthKey", JVal.jstr "NEW")] (.jstr "NEW")
      rfl (by decide)).2.2,
   rfl,
   (C9_login_contract c9wbad "secret").2.2.2 "nope" rfl⟩

/-- Claim C10 (implicit): whenever a login attempt fails — for any
error kind — the stored auth key is exactly what it was before the
attempt; the key is replaced only after a response carrying an
`AuthKey` arrives.  Stated both for the internal `_do_login` (used by
the automatic re-login) and for the public `login`. -/
theorem C10_key_unchanged_on_failed_login (w : World) (pw : String) :
    (∀ e, (doLogin w pw).1 = .error e → (doLogin w pw).2.api.authKey = w.api.authKey) ∧
    (∀ e, (login w pw).1 = .error e → (login w pw).2.api.authKey = w.api.authKey) := by
  refine ⟨fun e he => (doLogin_spec w pw).2.2.2.1 e he, fun e he => ?_⟩
  exact (doLogin_spec { w with api := { w.api with password := some pw } } pw).2.2.2.1 e he

/-- World for the C10 witness: an old key is stored and the device
rejects the login with a 403. -/
def c10w : World :=
  { api := { authKey := some (.jstr "OLD"), password := none },
    net := fun _ => .reply 403 (.rawText "Forbidden"), sent := [] }

/-- Witness for C10: the concrete failed login leaves the stored key
untouched. -/
theorem C10_witness :
    (login c10w "secret").1 = .error (.authError "Authentication failed") ∧
    (login c10w "secret").2.api.authKey = some (.jstr "OLD") ∧
    c10w.api.authKey = some (.jstr "OLD") :=
  ⟨by decide,
   (C10_key_unchanged_on_failed_login c10w "secret").2
     (.authError "Authentication failed") (by decide),
   rfl⟩


/-- Claim C2: a poll cycle whose primary fetch raises
`PrachtAlphaAuthError` publishes nothing, raises the fatal
authentication classification (`ConfigEntryAuthFailed`), and never
attempts the lock-status fetch: no request of the cycle targets
`/api/v1/lock_status`. -/
theorem C2_auth_failure_terminal (w : World) (msg : String)
    (h : (get_all w).1 = .error (.authError msg)) :
    (async_update_data w).1 = .authFailed ∧
    (∀ snap, (async_update_data w).1 ≠ .published snap) ∧
    (∀ r ∈ (async_update_data w).2.sent.drop w.sent.length,
      r.path ≠ "/api/v1/lock_status") := by
  have hupd : async_update_data w = (.authFailed, (get_all w).2) := by
    unfold async_update_data
    rw [h]
  have hfst : (async_update_data w).1 = .authFailed := by rw [hupd]
  have hsnd : (async_update_data w).2 = (get_all w).2 := by rw [hupd]
  obtain ⟨l, hl, hpaths⟩ := get_all_paths w
  refine ⟨hfst, ?_, ?_⟩
  · intro snap
    rw [hfst]
    intro hcontra
    cases hcontra
  · intro r hr
    rw [hsnd, hl, List.drop_left] at hr
    rcases hpaths r hr with h1 | h1 <;> rw [h1] <;> decide

/-- World for the C2 witness: the device answers 403 to everything and
no credentials are stored, so the primary fetch raises `AuthError`. -/
def c2w : World :=
  { api := { authKey := none, password := none },
    net := fun _ => .reply 403 (.rawText "Forbidden"), sent := [] }

/-- Witness for C2: on the concrete world the cycle raises the
fatal-auth classification and sends no lock-status request. -/
theorem C2_witness :
    (get_all c2w).1 = .error (.authError "Authentication failed") ∧
    (async_update_data c2w).1 = .authFailed ∧
    (async_update_data c2w).2.sent.map SentRequest.path = ["/api/v1/all"] :=
  ⟨by decide, (C2_auth_failure_terminal c2w "Authentication failed" (by decide)).1,
   by decide⟩

/-- Is this exception a `PrachtAlphaAuthError`?  `AuthError` is the one
client failure the lock-status `except` clause does not swallow. -/
def isAuthError : ApiError → Bool
  | .authError _ => true
  | .connectionError _ => false
  | .apiError _ => false

/-- Claim C3: when the primary fetch succeeds with
`supportLockUnlock = true` and the lock-status fetch fails with any
client-level error (connection or protocol, i.e. not `AuthError`), the
cycle still publishes the fetched `AllData` with a null lock status and
does not raise; when `supportLockUnlock = false` the lock-status fetch
is never attempted (the cycle sends nothing after the primary fetch)
and the snapshot carries a null lock status. -/
theorem C3_lock_fetch_best_effort :
    (∀ (w : World) (ad : PrachtAlphaData) (e : ApiError),
      (get_all w).1 = .ok ad →
      ad.supportLockUnlock = true →
      (get_lock_status (get_all w).2).1 = .error e →
      isAuthError e = false →
      (async_update_data w).1 = .published { allData := ad, lockStatus := none }) ∧
    (∀ (w : World) (ad : PrachtAlphaData),
      (get_all w).1 = .ok ad →
      ad.supportLockUnlock = false →
      (async_update_data w).1 = .published { allData := ad, lockStatus := none } ∧
      (async_update_data w).2.sent = (get_all w).2.sent) := by
  constructor
  · intro w ad e hga hsup hlock hne
    cases e with
    | authError m => simp [isAuthError] at hne
    | connectionError m => simp [async_update_data, hga, hsup, hlock]
    | apiError m => simp [async_update_data, hga, hsup, hlock]
  · intro w ad hga hsup
    constructor
    · simp [async_update_data, hga, hsup]
    · simp [async_update_data, hga, hsup]

/-- Network for the first C3 witness: the primary fetch succeeds with
lock support advertised, the lock-status fetch hits a dead network. -/
def c3net : Nat → NetResp
  | 0 => .reply 200 (.jsonDict [("SupportLockUnlock", .jnum 1)])
  | _ => .netErr "down"

/-- World for the first C3 witness. -/
def c3w : World :=
  { api := { authKey := none, password := none }, net := c3net, sent := [] }

/-- World for the second C3 witness: the primary fetch succeeds without
lock support. -/
def c3wb : World :=
  { api := { authKey := none, password := none },
    net := fun _ => .reply 200 (.jsonDict []), sent := [] }

/-- Witness for C3: a concrete cycle with a failing lock fetch still
publishes with a null lock status, and a concrete cycle without lock
support sends exactly one request. -/
theorem C3_witness :
    (get_all c3w).1 = .ok (parse_all_data [("SupportLockUnlock", .jnum 1)]) ∧
    (parse_all_data [("SupportLockUnlock", .jnum 1)]).supportLockUnlock = true ∧
    (get_lock_status (get_all c3w).2).1 = .error (.connectionError "down") ∧
    isAuthError (.connectionError "down") = false ∧
    (async_update_data c3w).1
      = .published { allData := parse_all_data [("SupportLockUnlock", .jnum 1)],
                     lockStatus := none } ∧
    (get_all c3wb).1 = .ok (parse_all_data []) ∧
    (parse_all_data []).supportLockUnlock = false ∧
    (async_update_data c3wb).1
      = .published { allData := parse_all_data [], lockStatus := none } ∧
    (async_update_data c3wb).2.sent = (get_all c3wb).2.sent :=
  ⟨by decide, by decide, by decide, by decide,
   C3_lock_fetch_best_effort.1 c3w (parse_all_data [("SupportLockUnlock", .jnum 1)])
     (.connectionError "down") (by decide) (by decide) (by decide) (by decide),
   by decide, by decide,
   (C3_lock_fetch_best_effort.2 c3wb (parse_all_data []) (by decide) (by decide)).1,
   (C3_lock_fetch_best_effort.2 c3wb (parse_all_data []) (by decide) (by decide)).2⟩


/-- Lemma: `get_led_mode` returns the world of its underlying request unchanged. -/
theorem get_led_mode_snd (w : World) :
    (get_led_mode w).2 = (request w "GET" "/api/v1/led_mode" none true true).2 := by
  unfold get_led_mode
  cases hr : (request w "GET" "/api/v1/led_mode" none true true).1 with
  | error e => rfl
  | ok v => cases v <;> rfl

/-- Header discipline of a single wire request of known shape: an
unauthenticated send only ever targets the login endpoint and carries
no header; an authenticated send carries the `AuthKey` header whenever
the key in force is truthy. -/
theorem sentOk_headers {m p : String} {j : Option Json} {r : SentRequest}
    (h : sentOk m p j true r) :
    (r.authenticated = false → r.path = "/api/v1/login" ∧ r.headers = []) ∧
    (∀ k, r.authenticated = true → r.keyAtSend = some k → k.truthy = true →
      r.headers = [("AuthKey", k)]) := by
  rcases h with ⟨api, hq⟩ | ⟨api, pw, hq⟩ <;> subst hq
  · constructor
    · intro hfalse
      simp [mkSent] at hfalse
    · intro k _ hkey htr
      simp only [mkSent] at hkey ⊢
      rw [hkey]
      simp [authHeaders, htr]
  · constructor
    · intro _
      refine ⟨rfl, ?_⟩
      cases hk : api.authKey <;> simp [mkSent, authHeaders, hk]
    · intro k hauth
      simp [mkSent] at hauth

/-- Claim C8 (amended): over every wire request any public client
operation issues, an unauthenticated attempt happens only for the login
endpoint (and carries no header), and every authenticated request
carries the current auth key as the `AuthKey` header whenever the key
in force at send time is non-empty (Python-truthy). -/
theorem C8_header_invariant (w : World) (op : ApiOp) (r : SentRequest)
    (hr : r ∈ (runOp w op).sent.drop w.sent.length) :
    (r.authenticated = false → r.path = "/api/v1/login" ∧ r.headers = []) ∧
    (∀ k, r.authenticated = true → r.keyAtSend = some k → k.truthy = true →
      r.headers = [("AuthKey", k)]) := by
  cases op with
  | opLogin pw =>
    have hdl := (doLogin_spec { w with api := { w.api with password := some pw } } pw).1
    have hsent : (runOp w (.opLogin pw)).sent
        = w.sent ++ [loginSent { w.api with password := some pw } pw] := by
      simp only [runOp]
      unfold login
      exact hdl
    rw [hsent, List.drop_left] at hr
    simp only [List.mem_singleton] at hr
    subst hr
    exact sentOk_headers (m := "POST") (p := "/api/v1/login") (j := some (loginBody pw))
      (Or.inr ⟨_, pw, rfl⟩)
  | opGetAll =>
    obtain ⟨l, hl, hok⟩ := request_sends w "GET" "/api/v1/all" none true true
    have hsent : (runOp w .opGetAll).sent = w.sent ++ l := by
      simp only [runOp]
      rw [get_all_snd]
      exact hl
    rw [hsent, List.drop_left] at hr
    exact sentOk_headers (hok r hr)
  | opGetLockStatus =>
    obtain ⟨l, hl, hok⟩ := request_sends w "GET" "/api/v1/lock_status" none true true
    have hsent : (runOp w .opGetLockStatus).sent = w.sent ++ l := by
      simp only [runOp]
      rw [get_lock_status_snd]
      exact hl
    rw [hsent, List.drop_left] at hr
    exact sentOk_headers (hok r hr)
  | opSetPower a b c =>
    obtain ⟨l, hl, hok⟩ := request_sends w "POST" "/api/v1/power"
      (some [("MaxCurrentTotal", .jnum a), ("MaxCurrentCar1", .jnum b),
             ("MaxCurrentCar2", .jnum c)]) true true
    have hsent : (runOp w (.opSetPower a b c)).sent = w.sent ++ l := by
      simp only [runOp]
      unfold set_power
      exact hl
    rw [hsent, List.drop_left] at hr
    exact sentOk_headers (hok r hr)
  | opLock sd =>
    obtain ⟨l, hl, hok⟩ := request_sends w "POST" "/api/v1/lock"
      (some [("action", .jstr "lock"), ("side", .jnum sd)]) true true
    have hsent : (runOp w (.opLock sd)).sent = w.sent ++ l := by
      simp only [runOp]
      unfold lock
      exact hl
    rw [hsent, List.drop_left] at hr
    exact sentOk_headers (hok r hr)
  | opUnlock sd =>
    obtain ⟨l, hl, hok⟩ := request_sends w "POST" "/api/v1/lock"
      (some [("action", .jstr "unlock"), ("side", .jnum sd)]) true true
    have hsent : (runOp w (.opUnlock sd)).sent = w.sent ++ l := by
      simp only [runOp]
      unfold unlock
      exact hl
    rw [hsent, List.drop_left] at hr
    exact sentOk_headers (hok r hr)
  | opGetLedMode =>
    obtain ⟨l, hl, hok⟩ := request_sends w "GET" "/api/v1/led_mode" none true true
    have hsent : (runOp w .opGetLedMode).sent = w.sent ++ l := by
      simp only [runOp]
      rw [get_led_mode_snd]
      exact hl
    rw [hsent, List.drop_left] at hr
    exact sentOk_headers (hok r hr)
  | opSetLedMode md =>
    obtain ⟨l, hl, hok⟩ := request_sends w "POST" "/api/v1/led_mode"
      (some [("ledMode", .jnum md)]) true true
    have hsent : (runOp w (.opSetLedMode md)).sent = w.sent ++ l := by
      simp only [runOp]
      unfold set_led_mode
      exact hl
    rw [hsent, List.drop_left] at hr
    exact sentOk_headers (hok r hr)

/-- Network for the C8 counterexample: the login succeeds but hands
back the empty string as auth key; everything else answers 200. -/
def c8net : Nat → NetResp
  | 0 => .reply 200 (.jsonDict [("AuthKey", .jstr "")])
  | _ => .reply 200 (.jsonDict [])

/-- World for the C8 counterexample: a fresh client. -/
def c8w : World :=
  { api := { authKey := none, password := none }, net := c8net, sent := [] }

/-- Counterexample to C8 as stated: after a successful `login` whose
response carries `AuthKey: ""`, an auth key *is* present
(`some (jstr "")`), yet the following authenticated `/api/v1/all`
request attaches no `AuthKey` header, because Python's
`if authenticated and self._auth_key:` is false for the empty string.
"Attaches the auth key whenever one is present" fails at this input. -/
theorem C8_counterexample :
    (login c8w "pw").1 = .ok (.jstr "") ∧
    (login c8w "pw").2.api.authKey = some (.jstr "") ∧
    (get_all (login c8w "pw").2).2.sent.map SentRequest.path
      = ["/api/v1/login", "/api/v1/all"] ∧
    (get_all (login c8w "pw").2).2.sent.map SentRequest.authenticated = [false, true] ∧
    (get_all (login c8w "pw").2).2.sent.map SentRequest.headers = [[], []] := by
  decide

/-- World for the C8 witness: a truthy key is stored. -/
def c8ww : World :=
  { api := { authKey := some (.jstr "KEY"), password := none },
    net := fun _ => .reply 200 (.jsonDict []), sent := [] }

/-- Witness for C8: the one request of a concrete `get_all` run is
authenticated with the stored truthy key and carries it as the
`AuthKey` header. -/
theorem C8_witness :
    (mkSent c8ww.api "GET" "/api/v1/all" none true
      ∈ (runOp c8ww .opGetAll).sent.drop c8ww.sent.length) ∧
    (mkSent c8ww.api "GET" "/api/v1/all" none true).authenticated = true ∧
    (mkSent c8ww.api "GET" "/api/v1/all" none true).keyAtSend = some (.jstr "KEY") ∧
    JVal.truthy (.jstr "KEY") = true ∧
    (mkSent c8ww.api "GET" "/api/v1/all" none true).headers
      = [("AuthKey", .jstr "KEY")] :=
  ⟨by decide, by decide, by decide, by decide,
   (C8_header_invariant c8ww .opGetAll (mkSent c8ww.api "GET" "/api/v1/all" none true)
      (by decide)).2 (.jstr "KEY") (by decide) (by decide) (by decide)⟩

end PrachtAlpha

